import Mathlib

/-!
Shallow embedding of the cold-storage detection service
(`src/detection/service/{config,counter,main,camera}.py`).

Time values (`time.time()`) are modelled as rationals passed explicitly
(`now`). Frames are an abstract type `γ`; the video artifact is the list of
frames written to it. The ByteTrack tracker from the `supervision` library
is external code, so it is modelled abstractly as a state machine
(`TrackerModel`): `update` consumes the per-tick bag detections and returns
the new tracker state together with the optional list of tracker ids
(`tracked.tracker_id`, which may be `None`).
-/

namespace ColdStorage

/-- Class ids from `config.py` (`CLASS_POTATO_BAG = 0` etc.). -/
def CLASS_POTATO_BAG : Nat := 0

def CLASS_BAG_CLUSTER : Nat := 1

def CLASS_VEHICLE : Nat := 2

/-- Default of `VEHICLE_ABSENCE_TIMEOUT` in `config.py` (seconds). -/
def VEHICLE_ABSENCE_TIMEOUT_default : ℚ := 30

/-- Default of `MIN_BAG_COUNT_TO_REPORT` in `config.py`. -/
def MIN_BAG_COUNT_TO_REPORT_default : ℕ := 1

/-- One detection dict produced by `Detector.detect`: only the fields the
counting logic reads (`class_id`, `confidence`); the bbox is consumed only
by the external tracker, which is abstract here. -/
structure Detection where
  class_id : Nat
  confidence : ℚ
deriving DecidableEq, Repr

/-- Abstract model of `sv.ByteTrack`: `init` is the freshly constructed
tracker and `update` is `update_with_detections` followed by reading
`tracked.tracker_id` (`none` models Python `None`). -/
structure TrackerModel (σ : Type) where
  init : σ
  update : σ → List Detection → σ × Option (List ℤ)

/-- `UnloadingSession` dataclass from `counter.py`. `video_open` models
`video_writer is not None and video_writer.isOpened()`; `video_frames` is
the content written to the video artifact. -/
structure UnloadingSession (γ : Type) where
  gate_id : String
  started_at : ℚ
  last_vehicle_seen : ℚ
  unique_bag_ids : Finset ℤ
  bag_cluster_count : ℕ
  peak_bags_in_frame : ℕ
  total_frames : ℕ
  vehicle_confidence_sum : ℚ
  vehicle_detections : ℕ
  ended : Bool
  video_open : Bool
  video_frames : List γ
deriving DecidableEq

/-- `UnloadingSession(gate_id=...)` dataclass construction at time `now`
(the `default_factory=time.time` fields). -/
def UnloadingSession.new (γ : Type) (gate_id : String) (now : ℚ) : UnloadingSession γ :=
  { gate_id := gate_id
    started_at := now
    last_vehicle_seen := now
    unique_bag_ids := ∅
    bag_cluster_count := 0
    peak_bags_in_frame := 0
    total_frames := 0
    vehicle_confidence_sum := 0
    vehicle_detections := 0
    ended := false
    video_open := false
    video_frames := [] }

namespace UnloadingSession

variable {γ : Type}

/-- `bag_count` property. -/
def bag_count (s : UnloadingSession γ) : ℕ := s.unique_bag_ids.card

/-- `estimated_total` property: individual tracked bags + estimated bags
from clusters. -/
def estimated_total (s : UnloadingSession γ) : ℕ := s.bag_count + s.bag_cluster_count

/-- `avg_vehicle_confidence` property. -/
def avg_vehicle_confidence (s : UnloadingSession γ) : ℚ :=
  if s.vehicle_detections = 0 then 0
  else s.vehicle_confidence_sum / (s.vehicle_detections : ℚ)

/-- `duration_seconds` property: endpoint is `last_vehicle_seen` once
ended, otherwise the current time. -/
def duration_seconds (s : UnloadingSession γ) (now : ℚ) : ℚ :=
  (if s.ended then s.last_vehicle_seen else now) - s.started_at

/-- `start_recording`: opens the video writer (path/fps details are
filesystem effects outside the counting logic). -/
def start_recording (s : UnloadingSession γ) : UnloadingSession γ :=
  { s with video_open := true }

/-- `write_frame`: appends the frame iff the writer is open. -/
def write_frame (s : UnloadingSession γ) (f : γ) : UnloadingSession γ :=
  if s.video_open then { s with video_frames := s.video_frames ++ [f] } else s

/-- `stop_recording`: releases the writer, freezing the artifact. -/
def stop_recording (s : UnloadingSession γ) : UnloadingSession γ :=
  { s with video_open := false }

end UnloadingSession

/-- Round half to even at integer precision, the documented behaviour of
Python `round`. -/
def roundHalfEven (q : ℚ) : ℤ :=
  if q - ⌊q⌋ < 1 / 2 then ⌊q⌋
  else if q - ⌊q⌋ > 1 / 2 then ⌊q⌋ + 1
  else if Even ⌊q⌋ then ⌊q⌋ else ⌊q⌋ + 1

/-- Python `round(q, n)`. -/
def pyRound (n : ℕ) (q : ℚ) : ℚ := (roundHalfEven (q * 10 ^ n) : ℚ) / 10 ^ n

/-- The dict built by `UnloadingSession.to_dict` (the completed-visit
record); `video_frames` stands for the saved video artifact whose path and
size the dict reports. -/
structure SessionRecord (γ : Type) where
  gate_id : String
  started_at : ℚ
  duration_seconds : ℚ
  bag_count : ℕ
  bag_cluster_count : ℕ
  estimated_total : ℕ
  peak_bags_in_frame : ℕ
  total_frames : ℕ
  avg_vehicle_confidence : ℚ
  video_frames : List γ
deriving DecidableEq

/-- `UnloadingSession.to_dict`. -/
def UnloadingSession.to_dict {γ : Type} (s : UnloadingSession γ) (now : ℚ) : SessionRecord γ :=
  { gate_id := s.gate_id
    started_at := s.started_at
    duration_seconds := pyRound 1 (s.duration_seconds now)
    bag_count := s.bag_count
    bag_cluster_count := s.bag_cluster_count
    estimated_total := s.estimated_total
    peak_bags_in_frame := s.peak_bags_in_frame
    total_frames := s.total_frames
    avg_vehicle_confidence := pyRound 3 s.avg_vehicle_confidence
    video_frames := s.video_frames }

/-- `BagCounter` state: persistent tracker plus optional live session. -/
structure BagCounter (σ γ : Type) where
  gate_id : String
  tracker : σ
  session : Option (UnloadingSession γ)

/-- `BagCounter.__init__`. -/
def BagCounter.mkFresh {σ : Type} (γ : Type) (M : TrackerModel σ) (gate_id : String) :
    BagCounter σ γ :=
  { gate_id := gate_id, tracker := M.init, session := none }

/-- `bags = [d for d in detections if d["class_id"] == CLASS_POTATO_BAG]`. -/
def bagsOf (detections : List Detection) : List Detection :=
  detections.filter (fun d => d.class_id == CLASS_POTATO_BAG)

/-- `clusters = [d for d in detections if d["class_id"] == CLASS_BAG_CLUSTER]`. -/
def clustersOf (detections : List Detection) : List Detection :=
  detections.filter (fun d => d.class_id == CLASS_BAG_CLUSTER)

/-- `vehicles = [d for d in detections if d["class_id"] == CLASS_VEHICLE]`. -/
def vehiclesOf (detections : List Detection) : List Detection :=
  detections.filter (fun d => d.class_id == CLASS_VEHICLE)

/-- Python `max(v["confidence"] for v in vehicles)` (callers guarantee the
list is nonempty; `0` is the unused empty case). -/
def confMax : List Detection → ℚ
  | [] => 0
  | v :: vs => vs.foldl (fun m d => max m d.confidence) v.confidence

section ProcessFrame

variable {σ γ : Type}

/-- `# Record frame to video if session active` block of `process_frame`. -/
def record_frame_step (c : BagCounter σ γ) (frame : Option γ) : BagCounter σ γ :=
  match c.session, frame with
  | some s, some f => { c with session := some (s.write_frame f) }
  | _, _ => c

/-- `# Track individual bags if session is active` block of
`process_frame`: run the tracker over this tick's bag detections, record
the unique tracker ids, bump `total_frames` and the in-frame peak. -/
def track_bags_step (M : TrackerModel σ) (c : BagCounter σ γ)
    (bags : List Detection) : BagCounter σ γ :=
  match c.session with
  | some s =>
    if bags.isEmpty then c
    else
      let r := M.update c.tracker bags
      let ids := r.2.getD []
      let s' :=
        { s with
          unique_bag_ids := ids.foldl (fun acc tid => insert tid acc) s.unique_bag_ids
          total_frames := s.total_frames + 1
          peak_bags_in_frame :=
            if bags.length > s.peak_bags_in_frame then bags.length
            else s.peak_bags_in_frame }
      { c with tracker := r.1, session := some s' }
  | none => c

/-- `# Count clusters (not individually trackable)` block of
`process_frame`. -/
def count_clusters_step (c : BagCounter σ γ) (clusters : List Detection) :
    BagCounter σ γ :=
  match c.session with
  | some s =>
    if clusters.isEmpty then c
    else if clusters.length > s.bag_cluster_count then
      { c with session := some { s with bag_cluster_count := clusters.length } }
    else c
  | none => c

/-- The trailing blocks of `process_frame` (reached when no early return
happened), in source order. -/
def tail_updates (M : TrackerModel σ) (c : BagCounter σ γ)
    (bags clusters : List Detection) (frame : Option γ) : BagCounter σ γ :=
  count_clusters_step (track_bags_step M (record_frame_step c frame) bags) clusters

/-- `BagCounter.process_frame` at time `now`: returns the updated counter
state and the completed session record, if any. -/
def process_frame (M : TrackerModel σ) (VEHICLE_ABSENCE_TIMEOUT : ℚ)
    (c : BagCounter σ γ) (detections : List Detection) (frame : Option γ)
    (now : ℚ) : BagCounter σ γ × Option (SessionRecord γ) :=
  let bags := bagsOf detections
  let clusters := clustersOf detections
  let vehicles := vehiclesOf detections
  if ¬vehicles.isEmpty then
    -- Vehicle present — start or continue session
    let s0 :=
      match c.session with
      | none =>
        let s := UnloadingSession.new γ c.gate_id now
        if frame.isSome then s.start_recording else s
      | some s => s
    let s1 :=
      { s0 with
        last_vehicle_seen := now
        vehicle_detections := s0.vehicle_detections + 1
        vehicle_confidence_sum := s0.vehicle_confidence_sum + confMax vehicles }
    (tail_updates M { c with session := some s1 } bags clusters frame, none)
  else
    match c.session with
    | some s =>
      -- No vehicle — check if session should end
      if now - s.last_vehicle_seen > VEHICLE_ABSENCE_TIMEOUT then
        let sEnd := UnloadingSession.stop_recording { s with ended := true }
        let completed := sEnd.to_dict now
        ({ gate_id := c.gate_id, tracker := M.init, session := none }, some completed)
      else
        (tail_updates M c bags clusters frame, none)
    | none => (tail_updates M c bags clusters frame, none)

/-- One tick of input to `process_frame`. -/
structure Tick (γ : Type) where
  detections : List Detection
  frame : Option γ
  now : ℚ

/-- Feed a sequence of ticks through `process_frame`, collecting the
per-tick outputs. -/
def runTicks (M : TrackerModel σ) (timeout : ℚ) :
    BagCounter σ γ → List (Tick γ) → BagCounter σ γ × List (Option (SessionRecord γ))
  | c, [] => (c, [])
  | c, t :: rest =>
    let r := process_frame M timeout c t.detections t.frame t.now
    let r' := runTicks M timeout r.1 rest
    (r'.1, r.2 :: r'.2)

/-! ### Characterization lemmas for `process_frame` -/

/-- The vehicle-branch bookkeeping applied to a session on a tick whose
vehicle list is `vehicles`. -/
def vehicleTickUpdate (s : UnloadingSession γ) (now : ℚ) (vehicles : List Detection) :
    UnloadingSession γ :=
  { s with
    last_vehicle_seen := now
    vehicle_detections := s.vehicle_detections + 1
    vehicle_confidence_sum := s.vehicle_confidence_sum + confMax vehicles }

/-- The session created in the vehicle branch when none was live, after
this tick's vehicle bookkeeping. -/
def freshLiveSession (γ : Type) (gate_id : String) (now : ℚ) (frame : Option γ)
    (vehicles : List Detection) : UnloadingSession γ :=
  let s := UnloadingSession.new γ gate_id now
  vehicleTickUpdate (if frame.isSome then s.start_recording else s) now vehicles

/-- The completed record built on the finalizing tick: session marked
ended, recording stopped, `to_dict` taken. -/
def finalRecord (s : UnloadingSession γ) (now : ℚ) : SessionRecord γ :=
  (UnloadingSession.stop_recording { s with ended := true }).to_dict now

end ProcessFrame

/-! ### `main.py` — `report_session` -/

/-- Outcome of the network call in `report_session`: an HTTP response with
a status code, or a `requests.RequestException` (transport error). -/
inductive NetResult where
  | response (status : ℕ)
  | transportError
deriving DecidableEq, Repr

/-- What `report_session` did with a completed record. -/
inductive ReportOutcome where
  | skipped
  | reported
  | rejected (status : ℕ)
  | failed
deriving DecidableEq, Repr

/-- `report_session` from `main.py`, with the network abstracted as the
result `net` the single `requests.post` would yield. Returns the number of
network calls issued together with the logged outcome. -/
def report_session {γ : Type} (MIN_BAG_COUNT_TO_REPORT : ℕ)
    (session : SessionRecord γ) (net : NetResult) : ℕ × ReportOutcome :=
  if session.estimated_total < MIN_BAG_COUNT_TO_REPORT then
    (0, ReportOutcome.skipped)
  else
    match net with
    | NetResult.response status =>
      if status = 200 ∨ status = 201 then (1, ReportOutcome.reported)
      else (1, ReportOutcome.rejected status)
    | NetResult.transportError => (1, ReportOutcome.failed)

/-! ### `camera.py` — reconnect backoff in `CameraStream._read_loop` -/

/-- `CameraStream.__init__` sets `self._reconnect_delay = 5` seconds. -/
def reconnect_delay : ℕ := 5

/-- Maximum backoff: `min(..., 60)` in `_read_loop`. -/
def max_reconnect_delay : ℕ := 60

/-- The fields of `CameraStream` state the open-failure path touches. -/
structure StreamState where
  running : Bool
  consecutive_failures : ℕ
deriving DecidableEq, Repr

/-- The open-failure branch of `_read_loop`: increment the failure count,
compute `min(self._reconnect_delay * self._consecutive_failures, 60)`,
sleep that many seconds and `continue` the loop. Returns the new state and
the delay slept; `running` is untouched, so the loop is never terminated by
an open failure. -/
def onOpenFailure (s : StreamState) : StreamState × ℕ :=
  let k := s.consecutive_failures + 1
  ({ s with consecutive_failures := k },
    min (reconnect_delay * k) max_reconnect_delay)

/-! ### Concrete instances used to exercise the model -/

/-- A degenerate tracker model: state is trivial and no ids are ever
returned (`tracked.tracker_id is None`). -/
def unitTracker : TrackerModel Unit :=
  { init := (), update := fun t _ => (t, none) }

/-- A counting tracker model: assigns the next fresh ids to the detections
it is given. -/
def countTracker : TrackerModel ℕ :=
  { init := 0
    update := fun t dets =>
      (t + dets.length, some ((List.range dets.length).map (fun i => (t + i : ℤ)))) }

/-- A concrete vehicle detection. -/
def vehicleDet : Detection := { class_id := CLASS_VEHICLE, confidence := 9 / 10 }

/-- A concrete potato-bag detection. -/
def bagDet : Detection := { class_id := CLASS_POTATO_BAG, confidence := 4 / 5 }

/-- A concrete bag-cluster detection. -/
def clusterDet : Detection := { class_id := CLASS_BAG_CLUSTER, confidence := 7 / 10 }

/-- A concrete live session: started at t=0, vehicle last seen at t=10. -/
def demoSession : UnloadingSession Unit :=
  { gate_id := "gate1"
    started_at := 0
    last_vehicle_seen := 10
    unique_bag_ids := ∅
    bag_cluster_count := 0
    peak_bags_in_frame := 0
    total_frames := 0
    vehicle_confidence_sum := 9 / 10
    vehicle_detections := 1
    ended := false
    video_open := false
    video_frames := [] }

/-- A counter with `demoSession` live. -/
def demoCounter : BagCounter Unit Unit :=
  { gate_id := "gate1", tracker := (), session := some demoSession }

/-- A live session whose vehicle was last seen a fraction of a second
after the visit started. -/
def shortSession : UnloadingSession Unit :=
  { demoSession with started_at := 0, last_vehicle_seen := 7 / 100 }

/-- A counter with `shortSession` live. -/
def shortCounter : BagCounter Unit Unit :=
  { gate_id := "gate1", tracker := (), session := some shortSession }

/-- A concrete completed record with two estimated bags. -/
def demoRecord : SessionRecord Unit :=
  { gate_id := "gate1"
    started_at := 0
    duration_seconds := 10
    bag_count := 1
    bag_cluster_count := 1
    estimated_total := 2
    peak_bags_in_frame := 1
    total_frames := 3
    avg_vehicle_confidence := 9 / 10
    video_frames := [] }

/-- A counter with `demoSession` live, paired with `countTracker` state. -/
def demoCounterN : BagCounter ℕ Unit :=
  { gate_id := "gate1", tracker := 0, session := some demoSession }

/-- `demoSession` after one vehicle-plus-bag tick at t=20 under
`countTracker`. -/
def demoStepSession : UnloadingSession Unit :=
  { demoSession with
    last_vehicle_seen := 20
    vehicle_detections := 2
    vehicle_confidence_sum := 9 / 10 + 9 / 10
    unique_bag_ids := insert 0 ∅
    total_frames := 1
    peak_bags_in_frame := 1 }

/-- `demoSession` after one vehicle-only tick at t=20. -/
def demoVehicleTickSession : UnloadingSession Unit :=
  { demoSession with
    last_vehicle_seen := 20
    vehicle_detections := 2
    vehicle_confidence_sum := 9 / 10 + 9 / 10 }

/-- Four live ticks whose per-tick cluster-class counts are 2, 5, 3, 1
(each with a vehicle present so the visit stays live). -/
def clusterTicks : List (Tick Unit) :=
  [⟨vehicleDet :: List.replicate 2 clusterDet, none, 0⟩,
   ⟨vehicleDet :: List.replicate 5 clusterDet, none, 1⟩,
   ⟨vehicleDet :: List.replicate 3 clusterDet, none, 2⟩,
   ⟨vehicleDet :: List.replicate 1 clusterDet, none, 3⟩]

/-- `demoSession` after the four `clusterTicks`. -/
def demoClusterRunSession : UnloadingSession Unit :=
  { demoSession with
    last_vehicle_seen := 3
    vehicle_detections := 5
    vehicle_confidence_sum := 9 / 10 + 9 / 10 + 9 / 10 + 9 / 10 + 9 / 10
    bag_cluster_count := 5 }

section Theorems

variable {σ γ : Type}

theorem record_frame_step_none (c : BagCounter σ γ) (frame : Option γ)
    (h : c.session = none) : record_frame_step c frame = c := by
  unfold record_frame_step
  cases frame <;> simp [h]

theorem track_bags_step_none (M : TrackerModel σ) (c : BagCounter σ γ)
    (bags : List Detection) (h : c.session = none) : track_bags_step M c bags = c := by
  unfold track_bags_step
  simp [h]

theorem count_clusters_step_none (c : BagCounter σ γ) (clusters : List Detection)
    (h : c.session = none) : count_clusters_step c clusters = c := by
  unfold count_clusters_step
  simp [h]

theorem tail_updates_none (M : TrackerModel σ) (c : BagCounter σ γ)
    (bags clusters : List Detection) (frame : Option γ) (h : c.session = none) :
    tail_updates M c bags clusters frame = c := by
  unfold tail_updates
  rw [record_frame_step_none c frame h, track_bags_step_none M c bags h,
    count_clusters_step_none c clusters h]

theorem record_frame_step_spec (c : BagCounter σ γ) (s : UnloadingSession γ)
    (frame : Option γ) (h : c.session = some s) :
    ∃ s', record_frame_step c frame = { c with session := some s' } ∧
      s'.video_frames = s.video_frames ++
        (match frame with
         | some f => if s.video_open then [f] else []
         | none => []) ∧
      s'.video_open = s.video_open ∧
      s'.unique_bag_ids = s.unique_bag_ids ∧
      s'.total_frames = s.total_frames ∧
      s'.peak_bags_in_frame = s.peak_bags_in_frame ∧
      s'.bag_cluster_count = s.bag_cluster_count ∧
      s'.gate_id = s.gate_id ∧
      s'.started_at = s.started_at ∧
      s'.last_vehicle_seen = s.last_vehicle_seen ∧
      s'.ended = s.ended ∧
      s'.vehicle_confidence_sum = s.vehicle_confidence_sum ∧
      s'.vehicle_detections = s.vehicle_detections := by
  obtain ⟨cg, ct, cs⟩ := c
  simp only at h
  subst h
  unfold record_frame_step
  cases frame with
  | none => exact ⟨s, by simp⟩
  | some f =>
    unfold UnloadingSession.write_frame
    by_cases hvo : s.video_open
    · exact ⟨{ s with video_frames := s.video_frames ++ [f] }, by simp [hvo]⟩
    · exact ⟨s, by simp [hvo]⟩

theorem track_bags_step_spec (M : TrackerModel σ) (c : BagCounter σ γ)
    (s : UnloadingSession γ) (bags : List Detection) (h : c.session = some s) :
    ∃ s', track_bags_step M c bags =
        { c with
          tracker := if bags.isEmpty then c.tracker else (M.update c.tracker bags).1
          session := some s' } ∧
      s'.unique_bag_ids =
        (if bags.isEmpty then s.unique_bag_ids
         else ((M.update c.tracker bags).2.getD []).foldl
           (fun acc tid => insert tid acc) s.unique_bag_ids) ∧
      s'.total_frames = s.total_frames + (if bags.isEmpty then 0 else 1) ∧
      s'.peak_bags_in_frame = max s.peak_bags_in_frame bags.length ∧
      s'.bag_cluster_count = s.bag_cluster_count ∧
      s'.video_frames = s.video_frames ∧
      s'.video_open = s.video_open ∧
      s'.gate_id = s.gate_id ∧
      s'.started_at = s.started_at ∧
      s'.last_vehicle_seen = s.last_vehicle_seen ∧
      s'.ended = s.ended ∧
      s'.vehicle_confidence_sum = s.vehicle_confidence_sum ∧
      s'.vehicle_detections = s.vehicle_detections := by
  obtain ⟨cg, ct, cs⟩ := c
  simp only at h
  subst h
  unfold track_bags_step
  cases hb : bags.isEmpty with
  | true =>
    refine ⟨s, ?_⟩
    have hb0 : bags = [] := List.isEmpty_iff.mp hb
    simp [hb, hb0]
  | false =>
    refine ⟨{ s with
      unique_bag_ids := ((M.update ct bags).2.getD []).foldl
        (fun acc tid => insert tid acc) s.unique_bag_ids
      total_frames := s.total_frames + 1
      peak_bags_in_frame :=
        if bags.length > s.peak_bags_in_frame then bags.length
        else s.peak_bags_in_frame }, ?_⟩
    have hpk : (if bags.length > s.peak_bags_in_frame then bags.length
        else s.peak_bags_in_frame) = max s.peak_bags_in_frame bags.length := by
      by_cases hab : bags.length > s.peak_bags_in_frame
      · simp [hab, max_eq_right (le_of_lt hab)]
      · simp [hab, max_eq_left (by omega : bags.length ≤ s.peak_bags_in_frame)]
    simp [hb, hpk]

theorem count_clusters_step_spec (c : BagCounter σ γ) (s : UnloadingSession γ)
    (clusters : List Detection) (h : c.session = some s) :
    ∃ s', count_clusters_step c clusters = { c with session := some s' } ∧
      s'.bag_cluster_count = max s.bag_cluster_count clusters.length ∧
      s'.unique_bag_ids = s.unique_bag_ids ∧
      s'.total_frames = s.total_frames ∧
      s'.peak_bags_in_frame = s.peak_bags_in_frame ∧
      s'.video_frames = s.video_frames ∧
      s'.video_open = s.video_open ∧
      s'.gate_id = s.gate_id ∧
      s'.started_at = s.started_at ∧
      s'.last_vehicle_seen = s.last_vehicle_seen ∧
      s'.ended = s.ended ∧
      s'.vehicle_confidence_sum = s.vehicle_confidence_sum ∧
      s'.vehicle_detections = s.vehicle_detections := by
  obtain ⟨cg, ct, cs⟩ := c
  simp only at h
  subst h
  unfold count_clusters_step
  cases hcl : clusters.isEmpty with
  | true =>
    refine ⟨s, ?_⟩
    have hcl0 : clusters = [] := List.isEmpty_iff.mp hcl
    simp [hcl, hcl0]
  | false =>
    by_cases hgt : clusters.length > s.bag_cluster_count
    · refine ⟨{ s with bag_cluster_count := clusters.length }, ?_⟩
      simp [hcl, hgt, max_eq_right (le_of_lt hgt)]
    · refine ⟨s, ?_⟩
      simp [hcl, hgt,
        max_eq_left (by omega : clusters.length ≤ s.bag_cluster_count)]

theorem tail_updates_spec (M : TrackerModel σ) (c : BagCounter σ γ)
    (s : UnloadingSession γ) (bags clusters : List Detection) (frame : Option γ)
    (h : c.session = some s) :
    ∃ s', (tail_updates M c bags clusters frame).session = some s' ∧
      (tail_updates M c bags clusters frame).gate_id = c.gate_id ∧
      (tail_updates M c bags clusters frame).tracker =
        (if bags.isEmpty then c.tracker else (M.update c.tracker bags).1) ∧
      s'.unique_bag_ids =
        (if bags.isEmpty then s.unique_bag_ids
         else ((M.update c.tracker bags).2.getD []).foldl
           (fun acc tid => insert tid acc) s.unique_bag_ids) ∧
      s'.total_frames = s.total_frames + (if bags.isEmpty then 0 else 1) ∧
      s'.peak_bags_in_frame = max s.peak_bags_in_frame bags.length ∧
      s'.bag_cluster_count = max s.bag_cluster_count clusters.length ∧
      s'.video_frames = s.video_frames ++
        (match frame with
         | some f => if s.video_open then [f] else []
         | none => []) ∧
      s'.video_open = s.video_open ∧
      s'.gate_id = s.gate_id ∧
      s'.started_at = s.started_at ∧
      s'.last_vehicle_seen = s.last_vehicle_seen ∧
      s'.ended = s.ended ∧
      s'.vehicle_confidence_sum = s.vehicle_confidence_sum ∧
      s'.vehicle_detections = s.vehicle_detections := by
  obtain ⟨s₁, he₁, hvf₁, hvo₁, hu₁, htf₁, hp₁, hbc₁, hg₁, hst₁, hl₁, hen₁, hcs₁, hvd₁⟩ :=
    record_frame_step_spec c s frame h
  obtain ⟨s₂, he₂, hu₂, htf₂, hp₂, hbc₂, hvf₂, hvo₂, hg₂, hst₂, hl₂, hen₂, hcs₂, hvd₂⟩ :=
    track_bags_step_spec M { c with session := some s₁ } s₁ bags rfl
  obtain ⟨s₃, he₃, hbc₃, hu₃, htf₃, hp₃, hvf₃, hvo₃, hg₃, hst₃, hl₃, hen₃, hcs₃, hvd₃⟩ :=
    count_clusters_step_spec
      { c with
        tracker := if bags.isEmpty then c.tracker else (M.update c.tracker bags).1
        session := some s₂ } s₂ clusters rfl
  refine ⟨s₃, ?_⟩
  unfold tail_updates
  rw [he₁, he₂, he₃]
  refine ⟨rfl, rfl, rfl, ?_, ?_, ?_, ?_, ?_, ?_, ?_, ?_, ?_, ?_, ?_, ?_⟩ <;>
    simp_all

theorem vehiclesOf_isEmpty_iff (dets : List Detection) :
    (vehiclesOf dets).isEmpty = true ↔ ∀ d ∈ dets, d.class_id ≠ CLASS_VEHICLE := by
  simp [vehiclesOf, List.isEmpty_iff, List.filter_eq_nil_iff]

theorem mem_foldl_insert (l : List ℤ) (s : Finset ℤ) (i : ℤ) :
    i ∈ l.foldl (fun acc tid => insert tid acc) s ↔ i ∈ s ∨ i ∈ l := by
  induction l generalizing s with
  | nil => simp
  | cons a l ih =>
    simp only [List.foldl_cons, ih, Finset.mem_insert, List.mem_cons]
    tauto

theorem subset_foldl_insert (l : List ℤ) (s : Finset ℤ) :
    s ⊆ l.foldl (fun acc tid => insert tid acc) s := by
  intro i hi
  exact (mem_foldl_insert l s i).mpr (Or.inl hi)

theorem process_frame_vehicle_live (M : TrackerModel σ) (T : ℚ) (c : BagCounter σ γ)
    (s : UnloadingSession γ) (dets : List Detection) (frame : Option γ) (now : ℚ)
    (hc : c.session = some s) (hv : (vehiclesOf dets).isEmpty = false) :
    process_frame M T c dets frame now =
      (tail_updates M
        { c with session := some (vehicleTickUpdate s now (vehiclesOf dets)) }
        (bagsOf dets) (clustersOf dets) frame, none) := by
  unfold process_frame vehicleTickUpdate
  simp [hv, hc]

theorem process_frame_vehicle_none (M : TrackerModel σ) (T : ℚ) (c : BagCounter σ γ)
    (dets : List Detection) (frame : Option γ) (now : ℚ)
    (hc : c.session = none) (hv : (vehiclesOf dets).isEmpty = false) :
    process_frame M T c dets frame now =
      (tail_updates M
        { c with
          session := some (freshLiveSession γ c.gate_id now frame (vehiclesOf dets)) }
        (bagsOf dets) (clustersOf dets) frame, none) := by
  unfold process_frame freshLiveSession vehicleTickUpdate
  simp [hv, hc]

theorem process_frame_quiet (M : TrackerModel σ) (T : ℚ) (c : BagCounter σ γ)
    (s : UnloadingSession γ) (dets : List Detection) (frame : Option γ) (now : ℚ)
    (hc : c.session = some s) (hv : (vehiclesOf dets).isEmpty = true)
    (ht : ¬(now - s.last_vehicle_seen > T)) :
    process_frame M T c dets frame now =
      (tail_updates M c (bagsOf dets) (clustersOf dets) frame, none) := by
  unfold process_frame
  simp [hv, hc, ht]

theorem process_frame_finalize (M : TrackerModel σ) (T : ℚ) (c : BagCounter σ γ)
    (s : UnloadingSession γ) (dets : List Detection) (frame : Option γ) (now : ℚ)
    (hc : c.session = some s) (hv : (vehiclesOf dets).isEmpty = true)
    (ht : now - s.last_vehicle_seen > T) :
    process_frame M T c dets frame now =
      ({ gate_id := c.gate_id, tracker := M.init, session := none },
        some (finalRecord s now)) := by
  unfold process_frame finalRecord
  simp [hv, hc, ht]

theorem process_frame_idle (M : TrackerModel σ) (T : ℚ) (c : BagCounter σ γ)
    (dets : List Detection) (frame : Option γ) (now : ℚ)
    (hc : c.session = none) (hv : (vehiclesOf dets).isEmpty = true) :
    process_frame M T c dets frame now = (c, none) := by
  unfold process_frame
  simp [hv, hc, tail_updates_none M c (bagsOf dets) (clustersOf dets) frame hc]

/-- Any tick processed on a live session either finalizes it (early return
with the completed record) or continues through the trailing update blocks
with the vehicle bookkeeping applied when vehicles are present. -/
theorem process_frame_live_cases (M : TrackerModel σ) (T : ℚ) (c : BagCounter σ γ)
    (s : UnloadingSession γ) (dets : List Detection) (frame : Option γ) (now : ℚ)
    (hc : c.session = some s) :
    ((vehiclesOf dets).isEmpty = true ∧ now - s.last_vehicle_seen > T ∧
      process_frame M T c dets frame now =
        ({ gate_id := c.gate_id, tracker := M.init, session := none },
          some (finalRecord s now))) ∨
    (∃ s₀ : UnloadingSession γ,
      (s₀ = s ∨ s₀ = vehicleTickUpdate s now (vehiclesOf dets)) ∧
      s₀.unique_bag_ids = s.unique_bag_ids ∧
      s₀.total_frames = s.total_frames ∧
      s₀.peak_bags_in_frame = s.peak_bags_in_frame ∧
      s₀.bag_cluster_count = s.bag_cluster_count ∧
      s₀.video_frames = s.video_frames ∧
      s₀.video_open = s.video_open ∧
      s₀.started_at = s.started_at ∧
      s₀.gate_id = s.gate_id ∧
      s₀.ended = s.ended ∧
      process_frame M T c dets frame now =
        (tail_updates M { c with session := some s₀ }
          (bagsOf dets) (clustersOf dets) frame, none)) := by
  cases hv : (vehiclesOf dets).isEmpty with
  | false =>
    right
    refine ⟨vehicleTickUpdate s now (vehiclesOf dets), Or.inr rfl,
      rfl, rfl, rfl, rfl, rfl, rfl, rfl, rfl, rfl, ?_⟩
    exact process_frame_vehicle_live M T c s dets frame now hc hv
  | true =>
    by_cases ht : now - s.last_vehicle_seen > T
    · exact Or.inl ⟨rfl, ht, process_frame_finalize M T c s dets frame now hc hv ht⟩
    · right
      refine ⟨s, Or.inl rfl, rfl, rfl, rfl, rfl, rfl, rfl, rfl, rfl, rfl, ?_⟩
      have h := process_frame_quiet M T c s dets frame now hc hv ht
      rw [h]
      have : ({ c with session := some s } : BagCounter σ γ) = c := by
        obtain ⟨cg, ct, cs⟩ := c
        simp only at hc
        subst hc
        rfl
      rw [this]

theorem vehiclesOf_not_isEmpty_iff (dets : List Detection) :
    (vehiclesOf dets).isEmpty = false ↔ ∃ d ∈ dets, d.class_id = CLASS_VEHICLE := by
  have h1 : (vehiclesOf dets).isEmpty = false ↔ ¬(vehiclesOf dets).isEmpty = true := by
    cases (vehiclesOf dets).isEmpty <;> simp
  rw [h1, vehiclesOf_isEmpty_iff]
  push_neg
  rfl

/-! ### Claims -/

/-- C1: `process_frame` returns a completed-visit record precisely on a
tick where the session is live, the vehicle class is absent from the
detections, and the elapsed time since `last_vehicle_seen` strictly
exceeds the configured absence timeout; every other tick returns `None`.
On that finalizing tick the returned record is the ended session's
`to_dict`, the session is detached (`None`) and the tracker replaced by a
fresh one, so no later tick can re-finalize or re-emit the same visit. -/
theorem claim_C1_emit_once_at_timeout (M : TrackerModel σ) (T : ℚ)
    (c : BagCounter σ γ) (dets : List Detection) (frame : Option γ) (now : ℚ) :
    ((process_frame M T c dets frame now).2.isSome ↔
      ∃ s, c.session = some s ∧ (∀ d ∈ dets, d.class_id ≠ CLASS_VEHICLE) ∧
        now - s.last_vehicle_seen > T) ∧
    (∀ s, c.session = some s → (∀ d ∈ dets, d.class_id ≠ CLASS_VEHICLE) →
      now - s.last_vehicle_seen > T →
      process_frame M T c dets frame now =
        ({ gate_id := c.gate_id, tracker := M.init, session := none },
          some (finalRecord s now))) := by
  constructor
  · constructor
    · intro hsome
      cases hc : c.session with
      | none =>
        cases hv : (vehiclesOf dets).isEmpty with
        | true =>
          rw [process_frame_idle M T c dets frame now hc hv] at hsome
          simp at hsome
        | false =>
          rw [process_frame_vehicle_none M T c dets frame now hc hv] at hsome
          simp at hsome
      | some s =>
        rcases process_frame_live_cases M T c s dets frame now hc with
          ⟨hv, ht, _⟩ | ⟨s₀, -, -, -, -, -, -, -, -, -, -, heq⟩
        · exact ⟨s, rfl, (vehiclesOf_isEmpty_iff dets).mp hv, ht⟩
        · rw [heq] at hsome
          simp at hsome
    · rintro ⟨s, hc, hnov, ht⟩
      rw [process_frame_finalize M T c s dets frame now hc
        ((vehiclesOf_isEmpty_iff dets).mpr hnov) ht]
      simp
  · intro s hc hnov ht
    exact process_frame_finalize M T c s dets frame now hc
      ((vehiclesOf_isEmpty_iff dets).mpr hnov) ht

/-- Witness for C1: a live session whose vehicle was last seen at t=10 is
finalized by a vehicle-free tick at t=100 with a 30-second timeout. -/
theorem claim_C1_emit_once_at_timeout_witness :
    process_frame unitTracker 30 demoCounter [] none 100 =
      ({ gate_id := "gate1", tracker := (), session := none },
        some (finalRecord demoSession 100)) :=
  (claim_C1_emit_once_at_timeout unitTracker 30 demoCounter [] none 100).2
    demoSession rfl (by intro d hd; simp at hd) (by norm_num [demoSession])

/-- C2: a visit is created on a tick iff a vehicle-class detection is
present while no visit is live; a live visit is never replaced by a new
one on a tick; and a detection sequence containing no vehicle-class
detection at all creates no visit and emits no completion. -/
theorem claim_C2_creation_iff (M : TrackerModel σ) (T : ℚ) :
    (∀ (c : BagCounter σ γ) dets frame now, c.session = none →
      (((process_frame M T c dets frame now).1.session).isSome ↔
        ∃ d ∈ dets, d.class_id = CLASS_VEHICLE)) ∧
    (∀ (c : BagCounter σ γ) s dets frame now, c.session = some s →
      (process_frame M T c dets frame now).1.session = none ∨
      ∃ s', (process_frame M T c dets frame now).1.session = some s' ∧
        s'.started_at = s.started_at ∧ s'.gate_id = s.gate_id) ∧
    (∀ (c : BagCounter σ γ) (ticks : List (Tick γ)), c.session = none →
      (∀ t ∈ ticks, ∀ d ∈ t.detections, d.class_id ≠ CLASS_VEHICLE) →
      (runTicks M T c ticks).1.session = none ∧
      ∀ o ∈ (runTicks M T c ticks).2, o = none) := by
  refine ⟨?_, ?_, ?_⟩
  · intro c dets frame now hc
    cases hv : (vehiclesOf dets).isEmpty with
    | true =>
      rw [process_frame_idle M T c dets frame now hc hv, hc]
      simp only [Option.isSome_none, Bool.false_eq_true, false_iff]
      rw [← vehiclesOf_not_isEmpty_iff]
      simp [hv]
    | false =>
      rw [process_frame_vehicle_none M T c dets frame now hc hv]
      obtain ⟨s', hs', -⟩ := tail_updates_spec M
        { c with session := some (freshLiveSession γ c.gate_id now frame (vehiclesOf dets)) }
        (freshLiveSession γ c.gate_id now frame (vehiclesOf dets))
        (bagsOf dets) (clustersOf dets) frame rfl
      simp only [hs', Option.isSome_some, true_iff]
      exact (vehiclesOf_not_isEmpty_iff dets).mp hv
  · intro c s dets frame now hc
    rcases process_frame_live_cases M T c s dets frame now hc with
      ⟨-, -, heq⟩ | ⟨s₀, -, -, -, -, -, -, -, hst, hg, -, heq⟩
    · left
      rw [heq]
    · right
      obtain ⟨s', hs', -, -, -, -, -, -, -, -, hg', hst', -, -, -, -⟩ :=
        tail_updates_spec M { c with session := some s₀ } s₀
          (bagsOf dets) (clustersOf dets) frame rfl
      rw [heq]
      exact ⟨s', hs', by rw [hst', hst], by rw [hg', hg]⟩
  · intro c ticks
    induction ticks generalizing c with
    | nil =>
      intro hc _
      simpa [runTicks] using hc
    | cons t rest ih =>
      intro hc hall
      have hv : (vehiclesOf t.detections).isEmpty = true :=
        (vehiclesOf_isEmpty_iff t.detections).mpr (hall t (by simp))
      have hstep := process_frame_idle M T c t.detections t.frame t.now hc hv
      have hrest := ih c hc (fun t' ht' => hall t' (by simp [ht']))
      refine ⟨?_, ?_⟩
      · simpa [runTicks, hstep] using hrest.1
      · intro o ho
        simp only [runTicks, hstep] at ho
        rcases List.mem_cons.mp ho with h | h
        · exact h
        · exact hrest.2 o h

/-- Witness for C2: a two-tick sequence (a bag-only tick, then an empty
tick) on a fresh counter creates no visit and emits nothing. -/
theorem claim_C2_creation_iff_witness :
    (runTicks unitTracker 30 (BagCounter.mkFresh Unit unitTracker "gate1")
        [⟨[bagDet], none, 0⟩, ⟨[], none, 1⟩]).1.session = none ∧
    ∀ o ∈ (runTicks unitTracker 30 (BagCounter.mkFresh Unit unitTracker "gate1")
        [⟨[bagDet], none, 0⟩, ⟨[], none, 1⟩]).2, o = none :=
  (claim_C2_creation_iff unitTracker 30).2.2
    (BagCounter.mkFresh Unit unitTracker "gate1")
    [⟨[bagDet], none, 0⟩, ⟨[], none, 1⟩] rfl (by decide)

/-- C3: while a visit stays live across a `process_frame` call, its
`unique_bag_ids` set only grows (elements are never removed), and every
element of the set after the call was either already present or is an
identity returned by the tracker on this call. -/
theorem claim_C3_unique_ids_monotone (M : TrackerModel σ) (T : ℚ)
    (c : BagCounter σ γ) (s s' : UnloadingSession γ) (dets : List Detection)
    (frame : Option γ) (now : ℚ) (hc : c.session = some s)
    (hs' : (process_frame M T c dets frame now).1.session = some s') :
    s.unique_bag_ids ⊆ s'.unique_bag_ids ∧
    ∀ i ∈ s'.unique_bag_ids, i ∈ s.unique_bag_ids ∨
      i ∈ (M.update c.tracker (bagsOf dets)).2.getD [] := by
  rcases process_frame_live_cases M T c s dets frame now hc with
    ⟨-, -, heq⟩ | ⟨s₀, -, hu₀, -, -, -, -, -, -, -, -, heq⟩
  · rw [heq] at hs'
    simp at hs'
  · obtain ⟨s₁, hs₁, -, -, hu₁, -, -, -, -, -, -, -, -, -, -, -⟩ :=
      tail_updates_spec M { c with session := some s₀ } s₀
        (bagsOf dets) (clustersOf dets) frame rfl
    rw [heq] at hs'
    simp only at hs'
    rw [hs₁] at hs'
    obtain rfl := Option.some.inj hs'
    rw [hu₁, hu₀]
    by_cases hb : (bagsOf dets).isEmpty
    · simp only [hb, if_true]
      exact ⟨Finset.Subset.refl _, fun i hi => Or.inl hi⟩
    · simp only [hb, if_false, Bool.false_eq_true]
      refine ⟨subset_foldl_insert _ _, ?_⟩
      intro i hi
      exact (mem_foldl_insert _ _ i).mp hi

/-- Witness for C3: one vehicle-plus-bag tick under `countTracker` grows
the id set from ∅ to {0}, and 0 was returned by the tracker. -/
theorem claim_C3_unique_ids_monotone_witness :
    demoSession.unique_bag_ids ⊆ demoStepSession.unique_bag_ids ∧
    ∀ i ∈ demoStepSession.unique_bag_ids, i ∈ demoSession.unique_bag_ids ∨
      i ∈ (countTracker.update demoCounterN.tracker
        (bagsOf [vehicleDet, bagDet])).2.getD [] :=
  claim_C3_unique_ids_monotone countTracker 30 demoCounterN demoSession
    demoStepSession [vehicleDet, bagDet] none 20 rfl rfl

/-- Per-tick cluster high-water recurrence extended over a run of ticks
that never finalizes the visit. -/
theorem runTicks_cluster_high_water (M : TrackerModel σ) (T : ℚ) :
    ∀ (ticks : List (Tick γ)) (c : BagCounter σ γ) (s : UnloadingSession γ),
      c.session = some s →
      (∀ o ∈ (runTicks M T c ticks).2, o = none) →
      ∀ s', (runTicks M T c ticks).1.session = some s' →
        s'.bag_cluster_count =
          ticks.foldl (fun m t => max m (clustersOf t.detections).length)
            s.bag_cluster_count := by
  intro ticks
  induction ticks with
  | nil =>
    intro c s hc _ s' hs'
    simp only [runTicks] at hs'
    rw [hc] at hs'
    obtain rfl := Option.some.inj hs'
    simp
  | cons t rest ih =>
    intro c s hc hnone s' hs'
    rcases process_frame_live_cases M T c s t.detections t.frame t.now hc with
      ⟨-, -, heq⟩ | ⟨s₀, -, -, -, -, hbc₀, -, -, -, -, -, heq⟩
    · exfalso
      have h0 : (runTicks M T c (t :: rest)).2 =
          (process_frame M T c t.detections t.frame t.now).2 ::
            (runTicks M T (process_frame M T c t.detections t.frame t.now).1 rest).2 := by
        simp [runTicks]
      have := hnone (process_frame M T c t.detections t.frame t.now).2
        (by rw [h0]; exact List.mem_cons_self _ _)
      rw [heq] at this
      simp at this
    · obtain ⟨s₁, hs₁, -, -, -, -, -, hbc₁, -, -, -, -, -, -, -, -⟩ :=
        tail_updates_spec M { c with session := some s₀ } s₀
          (bagsOf t.detections) (clustersOf t.detections) t.frame rfl
      have hrun1 : (runTicks M T c (t :: rest)).1 =
          (runTicks M T (process_frame M T c t.detections t.frame t.now).1 rest).1 := by
        simp [runTicks]
      have hrun2 : ∀ o ∈ (runTicks M T
          (process_frame M T c t.detections t.frame t.now).1 rest).2, o = none := by
        intro o ho
        refine hnone o ?_
        have h0 : (runTicks M T c (t :: rest)).2 =
            (process_frame M T c t.detections t.frame t.now).2 ::
              (runTicks M T (process_frame M T c t.detections t.frame t.now).1 rest).2 := by
          simp [runTicks]
        rw [h0]
        exact List.mem_cons_of_mem _ ho
      rw [hrun1] at hs'
      have hsess : (process_frame M T c t.detections t.frame t.now).1.session = some s₁ := by
        rw [heq]
        exact hs₁
      have := ih (process_frame M T c t.detections t.frame t.now).1 s₁ hsess hrun2 s' hs'
      rw [this, List.foldl_cons, hbc₁, hbc₀]

/-- C4: for a visit live from a zero cluster count, after any sequence of
ticks that keeps it live, `bag_cluster_count` equals the maximum per-tick
cluster-class detection count over those ticks (0 if none occurred), not
any running sum. -/
theorem claim_C4_cluster_high_water (M : TrackerModel σ) (T : ℚ)
    (c : BagCounter σ γ) (s : UnloadingSession γ) (ticks : List (Tick γ))
    (hc : c.session = some s) (h0 : s.bag_cluster_count = 0)
    (hnone : ∀ o ∈ (runTicks M T c ticks).2, o = none)
    (s' : UnloadingSession γ) (hs' : (runTicks M T c ticks).1.session = some s') :
    s'.bag_cluster_count =
      (ticks.map (fun t => (clustersOf t.detections).length)).foldl max 0 := by
  rw [List.foldl_map, ← h0]
  exact runTicks_cluster_high_water M T ticks c s hc hnone s' hs'

/-- Witness for C4: per-tick cluster counts [2,5,3,1] over a live visit
yield a high-water of 5 — the maximum, which differs from the running sum
11. -/
theorem claim_C4_cluster_high_water_witness :
    (demoClusterRunSession.bag_cluster_count =
      (clusterTicks.map (fun t => (clustersOf t.detections).length)).foldl max 0) ∧
    clusterTicks.map (fun t => (clustersOf t.detections).length) = [2, 5, 3, 1] ∧
    demoClusterRunSession.bag_cluster_count = 5 ∧ (5 : ℕ) ≠ 2 + 5 + 3 + 1 :=
  ⟨claim_C4_cluster_high_water unitTracker 30 demoCounter demoSession clusterTicks
      rfl rfl
      (by
        have h : (runTicks unitTracker 30 demoCounter clusterTicks).2 =
            [none, none, none, none] := rfl
        intro o ho
        rw [h] at ho
        simpa using ho)
      demoClusterRunSession rfl,
    by decide, by decide, by decide⟩

/-- C5 counterexample: a vehicle-only tick processed while a visit is live
leaves `total_frames` unchanged (0, not incremented to 1), refuting the
claim that `total_frames` is incremented on every live tick regardless of
which detection classes appear. -/
theorem claim_C5_counterexample :
    (process_frame unitTracker 30 demoCounter [vehicleDet] none 20).1.session =
      some demoVehicleTickSession ∧
    demoSession.total_frames = 0 ∧
    demoVehicleTickSession.total_frames = 0 ∧
    demoVehicleTickSession.total_frames ≠ demoSession.total_frames + 1 := by
  exact ⟨rfl, rfl, rfl, by decide⟩

/-- C5 amended: on every tick processed while the visit stays live, the
frame (if supplied and recording is open) is appended to the video
artifact and `bag_cluster_count` is maxed with this tick's cluster count;
but the tracker runs, identities are added, `total_frames` is incremented
and the peak is updated only when the tick carries at least one bag-class
detection — `total_frames` counts bag-bearing ticks, not all live ticks. -/
theorem claim_C5_amended_live_tick (M : TrackerModel σ) (T : ℚ)
    (c : BagCounter σ γ) (s : UnloadingSession γ) (dets : List Detection)
    (frame : Option γ) (now : ℚ) (hc : c.session = some s)
    (hout : (process_frame M T c dets frame now).2 = none) :
    ∃ s', (process_frame M T c dets frame now).1.session = some s' ∧
      s'.video_frames = s.video_frames ++
        (if s.video_open then frame.toList else []) ∧
      s'.unique_bag_ids =
        (if (bagsOf dets).isEmpty then s.unique_bag_ids
         else ((M.update c.tracker (bagsOf dets)).2.getD []).foldl
           (fun acc tid => insert tid acc) s.unique_bag_ids) ∧
      s'.peak_bags_in_frame = max s.peak_bags_in_frame (bagsOf dets).length ∧
      s'.bag_cluster_count = max s.bag_cluster_count (clustersOf dets).length ∧
      s'.total_frames = s.total_frames + (if (bagsOf dets).isEmpty then 0 else 1) ∧
      (process_frame M T c dets frame now).1.tracker =
        (if (bagsOf dets).isEmpty then c.tracker
         else (M.update c.tracker (bagsOf dets)).1) := by
  rcases process_frame_live_cases M T c s dets frame now hc with
    ⟨-, -, heq⟩ | ⟨s₀, -, hu₀, htf₀, hp₀, hbc₀, hvf₀, hvo₀, -, -, -, heq⟩
  · rw [heq] at hout
    simp at hout
  · obtain ⟨s₁, hs₁, -, htr, hu₁, htf₁, hp₁, hbc₁, hvf₁, -, -, -, -, -, -⟩ :=
      tail_updates_spec M { c with session := some s₀ } s₀
        (bagsOf dets) (clustersOf dets) frame rfl
    rw [heq]
    refine ⟨s₁, hs₁, ?_, ?_, ?_, ?_, ?_, htr⟩
    · rw [hvf₁, hvf₀, hvo₀]
      cases frame <;> by_cases hvo : s.video_open <;> simp [hvo]
    · rw [hu₁, hu₀]
    · rw [hp₁, hp₀]
    · rw [hbc₁, hbc₀]
    · rw [htf₁, htf₀]

/-- Witness for C5 (amended) at a vehicle-only live tick: nothing but the
vehicle bookkeeping changes. -/
theorem claim_C5_amended_live_tick_witness :
    ∃ s', (process_frame unitTracker 30 demoCounter [vehicleDet] none 20).1.session =
        some s' ∧
      s'.video_frames = demoSession.video_frames ++
        (if demoSession.video_open then (none : Option Unit).toList else []) ∧
      s'.unique_bag_ids = demoSession.unique_bag_ids ∧
      s'.peak_bags_in_frame = max demoSession.peak_bags_in_frame 0 ∧
      s'.bag_cluster_count = max demoSession.bag_cluster_count 0 ∧
      s'.total_frames = demoSession.total_frames + 0 ∧
      (process_frame unitTracker 30 demoCounter [vehicleDet] none 20).1.tracker = () :=
  claim_C5_amended_live_tick unitTracker 30 demoCounter demoSession [vehicleDet]
    none 20 rfl rfl

/-- C6: `report_session` skips the network call iff the record's
`estimated_total` is strictly below the configured minimum; otherwise
exactly one reporting call is attempted. In every record built by
`to_dict`, `estimated_total` equals `bag_count + bag_cluster_count`. -/
theorem claim_C6_report_threshold (MIN : ℕ) (r : SessionRecord γ) (net : NetResult) :
    ((report_session MIN r net).2 = ReportOutcome.skipped ↔ r.estimated_total < MIN) ∧
    ((report_session MIN r net).1 = if r.estimated_total < MIN then 0 else 1) ∧
    ∀ (s : UnloadingSession γ) (now : ℚ),
      (s.to_dict now).estimated_total =
        (s.to_dict now).bag_count + (s.to_dict now).bag_cluster_count := by
  refine ⟨?_, ?_, ?_⟩
  · unfold report_session
    by_cases hlt : r.estimated_total < MIN
    · simp [hlt]
    · cases net with
      | response st => by_cases hst : st = 200 ∨ st = 201 <;> simp [hlt, hst]
      | transportError => simp [hlt]
  · unfold report_session
    by_cases hlt : r.estimated_total < MIN
    · simp [hlt]
    · cases net with
      | response st => by_cases hst : st = 200 ∨ st = 201 <;> simp [hlt, hst]
      | transportError => simp [hlt]
  · intro s now
    simp [UnloadingSession.to_dict, UnloadingSession.estimated_total]

/-- C7: the delay slept after the k-th consecutive open failure equals
`min(5·k, 60)` seconds, which equals the `5·min(k, 12)` formulation (which
never exceeds the 60-second cap), and the failure leaves `running`
untouched, so an open failure never terminates the read loop. -/
theorem claim_C7_backoff (st : StreamState) (k : ℕ) (hk : 1 ≤ k)
    (hs : st.consecutive_failures = k - 1) :
    (onOpenFailure st).2 = min (reconnect_delay * k) max_reconnect_delay ∧
    (onOpenFailure st).2 = reconnect_delay * min k 12 ∧
    reconnect_delay * min k 12 ≤ max_reconnect_delay ∧
    (onOpenFailure st).1.running = st.running ∧
    (onOpenFailure st).1.consecutive_failures = k := by
  refine ⟨?_, ?_, ?_, ?_, ?_⟩ <;>
    simp only [onOpenFailure, reconnect_delay, max_reconnect_delay, hs] <;>
    omega

/-- Witness for C7 at the third consecutive failure: the slept delay is
15s = 5·3 = 5·min(3, 12), and the loop keeps running. -/
theorem claim_C7_backoff_witness :
    (onOpenFailure ⟨true, 2⟩).2 = min (reconnect_delay * 3) max_reconnect_delay ∧
    (onOpenFailure ⟨true, 2⟩).2 = reconnect_delay * min 3 12 ∧
    reconnect_delay * min 3 12 ≤ max_reconnect_delay ∧
    (onOpenFailure (⟨true, 2⟩ : StreamState)).1.running =
      (⟨true, 2⟩ : StreamState).running ∧
    (onOpenFailure ⟨true, 2⟩).1.consecutive_failures = 3 :=
  claim_C7_backoff ⟨true, 2⟩ 3 (by norm_num) rfl

/-- C8 counterexample: HTTP 204 lies in the 2xx range, yet `report_session`
classifies it as a failure (`rejected`), not success — the success check is
`status in (200, 201)`, not the whole 2xx range. -/
theorem claim_C8_counterexample :
    200 ≤ 204 ∧ 204 ≤ 299 ∧ ¬demoRecord.estimated_total < 1 ∧
    (report_session 1 demoRecord (NetResult.response 204)).2 ≠
      ReportOutcome.reported ∧
    (report_session 1 demoRecord (NetResult.response 204)).2 =
      ReportOutcome.rejected 204 := by
  decide

/-- C8 amended: when the threshold is met, exactly one call is issued, and
it is classified a success iff the response status is 200 or 201; every
other response status and every transport error is a logged failure, with
no retry (the call count stays 1). -/
theorem claim_C8_amended_success_iff (MIN : ℕ) (r : SessionRecord γ)
    (net : NetResult) (hq : ¬r.estimated_total < MIN) :
    (report_session MIN r net).1 = 1 ∧
    ((report_session MIN r net).2 = ReportOutcome.reported ↔
      ∃ st, net = NetResult.response st ∧ (st = 200 ∨ st = 201)) := by
  unfold report_session
  cases net with
  | response st =>
    by_cases hst : st = 200 ∨ st = 201
    · simp [hq, hst]
    · simp [hq, hst]
  | transportError => simp [hq]

/-- Witness for C8 (amended): a 201 response on a record above threshold
is one call classified as success. -/
theorem claim_C8_amended_success_iff_witness :
    (report_session 1 demoRecord (NetResult.response 201)).1 = 1 ∧
    ((report_session 1 demoRecord (NetResult.response 201)).2 =
        ReportOutcome.reported ↔
      ∃ st, NetResult.response 201 = NetResult.response st ∧
        (st = 200 ∨ st = 201)) :=
  claim_C8_amended_success_iff 1 demoRecord (NetResult.response 201) (by decide)

/-- C9: the finalizing tick contributes nothing from its own detections or
frame: the returned record is built from the session exactly as it stood
before the tick — same bag-id count, cluster count, peak, `total_frames`
and video artifact (the supplied frame is not appended) — and the tick's
bag detections are never tracked (the tracker is simply replaced). -/
theorem claim_C9_finalize_excludes_tick (M : TrackerModel σ) (T : ℚ)
    (c : BagCounter σ γ) (s : UnloadingSession γ) (dets : List Detection)
    (frame : Option γ) (now : ℚ) (hc : c.session = some s)
    (hv : ∀ d ∈ dets, d.class_id ≠ CLASS_VEHICLE)
    (ht : now - s.last_vehicle_seen > T) :
    process_frame M T c dets frame now =
      ({ gate_id := c.gate_id, tracker := M.init, session := none },
        some (finalRecord s now)) ∧
    (finalRecord s now).bag_count = s.unique_bag_ids.card ∧
    (finalRecord s now).bag_cluster_count = s.bag_cluster_count ∧
    (finalRecord s now).peak_bags_in_frame = s.peak_bags_in_frame ∧
    (finalRecord s now).total_frames = s.total_frames ∧
    (finalRecord s now).video_frames = s.video_frames := by
  refine ⟨process_frame_finalize M T c s dets frame now hc
    ((vehiclesOf_isEmpty_iff dets).mpr hv) ht, ?_, ?_, ?_, ?_, ?_⟩ <;>
    simp [finalRecord, UnloadingSession.to_dict, UnloadingSession.stop_recording,
      UnloadingSession.bag_count]

/-- Witness for C9: a finalizing tick carrying a bag, a cluster and a
frame leaves the record exactly as the session stood before the tick. -/
theorem claim_C9_finalize_excludes_tick_witness :
    process_frame unitTracker 30 demoCounter [bagDet, clusterDet] (some ()) 100 =
      ({ gate_id := "gate1", tracker := (), session := none },
        some (finalRecord demoSession 100)) ∧
    (finalRecord demoSession 100).bag_count = demoSession.unique_bag_ids.card ∧
    (finalRecord demoSession 100).bag_cluster_count = demoSession.bag_cluster_count ∧
    (finalRecord demoSession 100).peak_bags_in_frame =
      demoSession.peak_bags_in_frame ∧
    (finalRecord demoSession 100).total_frames = demoSession.total_frames ∧
    (finalRecord demoSession 100).video_frames = demoSession.video_frames :=
  claim_C9_finalize_excludes_tick unitTracker 30 demoCounter demoSession
    [bagDet, clusterDet] (some ()) 100 rfl (by decide)
    (by norm_num [demoSession])

/-- C10 amended: on the finalizing tick the completed record's
`duration_seconds` equals `last_vehicle_seen - started_at` rounded to one
decimal place (Python `round` in `to_dict`): the duration endpoint is the
last vehicle sighting, so the absence-timeout wait is excluded, but *exact*
equality with the unrounded difference does not hold in general. -/
theorem claim_C10_amended_duration (M : TrackerModel σ) (T : ℚ)
    (c : BagCounter σ γ) (s : UnloadingSession γ) (dets : List Detection)
    (frame : Option γ) (now : ℚ) (hc : c.session = some s)
    (hv : ∀ d ∈ dets, d.class_id ≠ CLASS_VEHICLE)
    (ht : now - s.last_vehicle_seen > T) :
    (process_frame M T c dets frame now).2 = some (finalRecord s now) ∧
    (finalRecord s now).duration_seconds =
      pyRound 1 (s.last_vehicle_seen - s.started_at) := by
  refine ⟨?_, ?_⟩
  · rw [process_frame_finalize M T c s dets frame now hc
      ((vehiclesOf_isEmpty_iff dets).mpr hv) ht]
  · simp [finalRecord, UnloadingSession.to_dict, UnloadingSession.stop_recording,
      UnloadingSession.duration_seconds]

/-- Witness for C10 (amended) at the 0.07-second visit. -/
theorem claim_C10_amended_duration_witness :
    (process_frame unitTracker 30 shortCounter [] none 31).2 =
      some (finalRecord shortSession 31) ∧
    (finalRecord shortSession 31).duration_seconds =
      pyRound 1 (shortSession.last_vehicle_seen - shortSession.started_at) :=
  claim_C10_amended_duration unitTracker 30 shortCounter shortSession [] none 31
    rfl (by simp) (by norm_num [shortSession, demoSession])

/-- C10 counterexample: a finalized visit whose vehicle interval is 0.07s
reports `duration_seconds = 0.1` (`to_dict` rounds to one decimal), so the
field does not equal `last_vehicle_seen - started_at` exactly. -/
theorem claim_C10_counterexample :
    (process_frame unitTracker 30 shortCounter [] none 31).2 =
      some (finalRecord shortSession 31) ∧
    shortSession.last_vehicle_seen - shortSession.started_at = 7 / 100 ∧
    (finalRecord shortSession 31).duration_seconds = 1 / 10 ∧
    (1 / 10 : ℚ) ≠ 7 / 100 := by
  have h := process_frame_finalize unitTracker 30 shortCounter shortSession [] none
    31 rfl rfl (by norm_num [shortSession, demoSession])
  refine ⟨by rw [h], by norm_num [shortSession, demoSession], ?_, by norm_num⟩
  have hfloor : ⌊(7 / 100 : ℚ) * 10 ^ 1⌋ = 0 := by
    rw [Int.floor_eq_iff]
    norm_num
  simp only [finalRecord, UnloadingSession.to_dict, UnloadingSession.stop_recording,
    UnloadingSession.duration_seconds, pyRound, roundHalfEven, shortSession,
    demoSession]
  norm_num at hfloor ⊢

end Theorems

end ColdStorage
